import Mathlib

/-!
Shallow embedding of the row-classification and table-transformation
pipeline of the networld-ibm-forecast repository
(`src/forecast_core/logic.py` and `src/tools/forecast_tool.py`),
together with theorems settling the frozen claims about it.

Tables are modelled as an ordered column-name list plus a list of rows;
a row is an association list from column name to cell value.  Cell
values are null (pandas NaN/NA), strings, or exact integers (numeric
cells of the data are currency amounts, quantities and id numbers).
Every stage returns `Except Err Table`, mirroring the `KeyError`s the
Python code raises on missing columns and the cast error of the
nullable-integer coercion.
-/

namespace Forecast

/-- A cell value: null (pandas NaN/NA), a string, or an exact integer.
Numeric cells are modelled as exact integers; Python renders an integer
as its full decimal numeral. -/
inductive Value where
  | null : Value
  | str : String → Value
  | num : Int → Value
deriving DecidableEq

/-- `str(x)` / `astype(str)`: pandas renders NaN as the string "nan",
keeps strings, and renders an integer as its decimal numeral. -/
def Value.toText : Value → String
  | .null => "nan"
  | .str s => s
  | .num n => toString n

/-- `pd.isna` on a single cell. -/
def Value.isNull : Value → Bool
  | .null => true
  | _ => false

/-- Numeric reading of a cell for summation; pandas `groupby(...).sum()`
skips NaN (counts it as 0).  Subtotal cells of real data are numeric. -/
def Value.toNum : Value → Int
  | .num n => n
  | _ => 0

/-- A row: association list from column name to cell value. -/
abbrev Row := List (String × Value)

/-- Cell lookup; a name not bound in the row reads as null. -/
def Row.get (r : Row) (c : String) : Value :=
  match r with
  | [] => Value.null
  | p :: rest => if p.1 == c then p.2 else Row.get rest c

/-- Column assignment `df[c] = v` at row level: an existing binding of
`c` is replaced in place (pandas keeps the column position), a new
binding is appended at the end. -/
def Row.set (r : Row) (c : String) (v : Value) : Row :=
  match r with
  | [] => [(c, v)]
  | p :: rest => if p.1 == c then (c, v) :: Row.set rest c v else p :: Row.set rest c v

/-- A table: ordered header plus rows. -/
structure Table where
  cols : List String
  rows : List Row
deriving DecidableEq

/-- Errors raised by the pipeline: a `KeyError` listing the missing
columns of a stage, or the `TypeError` of an unsafe `Int64` cast. -/
inductive Err where
  | missingCols (msg : String) (missing : List String) : Err
  | castErr (msg : String) : Err
deriving DecidableEq

/-- Column assignment `df[c] = f(row)`: the column is appended to the
header if new, and every row gets the computed cell. -/
def Table.setCol (t : Table) (c : String) (f : Row → Value) : Table :=
  { cols := if c ∈ t.cols then t.cols else t.cols ++ [c],
    rows := t.rows.map (fun r => Row.set r c (f r)) }

/-- Substring test on character lists (case-sensitive). -/
def charsContain (pat : List Char) : List Char → Bool
  | [] => pat.isEmpty
  | c :: rest => pat.isPrefixOf (c :: rest) || charsContain pat rest

/-- `str.contains` (plain substring, case-sensitive). -/
def strContains (s pat : String) : Bool :=
  charsContain pat.data s.data

deriving instance DecidableEq for Except

/-! ## `filter_ibm_manufacturer` (logic.py lines 5-26) -/

/-- The enumerated manufacturer-name spelling variants. -/
def ibmPatterns : List String :=
  ["日本アイ・ビー・エム", "日本IBM", "日本アイ・ビー・エム株式会社"]

/-- `df["メーカ名"].isin(patterns)`: exact equality with one of the
variants (a NaN or numeric cell matches none of the string patterns). -/
def ibmMask (v : Value) : Bool :=
  ibmPatterns.any (fun p => v == Value.str p)

/-- `df["メーカ名"].astype(str).str.contains("IBM", na=False)`. -/
def ibmExtraMask (v : Value) : Bool :=
  strContains v.toText "IBM"

/-- Keep the rows whose manufacturer name exactly equals a known
variant or contains "IBM"; `KeyError` if the column is absent. -/
def filter_ibm_manufacturer (t : Table) : Except Err Table :=
  if "メーカ名" ∈ t.cols then
    Except.ok { cols := t.cols,
                rows := t.rows.filter (fun r =>
                  ibmMask (Row.get r "メーカ名") || ibmExtraMask (Row.get r "メーカ名")) }
  else
    Except.error (Err.missingCols "列『メーカ名』が見積データに存在しません。" ["メーカ名"])

/-! ## `attach_sku` (logic.py lines 29-38) -/

/-- First 7 characters of the part number after coercion to text
(`astype(str).str.slice(0, 7)`). -/
def skuOf (v : Value) : String :=
  String.mk (v.toText.data.take 7)

/-- Add the SKU column; `KeyError` if the part-number column is absent. -/
def attach_sku (t : Table) : Except Err Table :=
  if "メーカ型番" ∈ t.cols then
    Except.ok (t.setCol "SKU" (fun r => Value.str (skuOf (Row.get r "メーカ型番"))))
  else
    Except.error (Err.missingCols "列『メーカ型番』が見積データに存在しません。" ["メーカ型番"])

/-! ## `attach_brand_and_license` (logic.py lines 41-67) -/

/-- The master-table columns the join requires. -/
def masterRequired : List String := ["パーツ番号", "ブランド", "ライセンス形態"]

/-- `drop_duplicates()`: keep the first occurrence of each row value. -/
def dedupFirstAux (seen : List Row) : List Row → List Row
  | [] => []
  | r :: rest =>
    if seen.contains r then dedupFirstAux seen rest
    else r :: dedupFirstAux (r :: seen) rest

/-- `drop_duplicates()` over a row list (first occurrence wins). -/
def dedupFirst (rs : List Row) : List Row :=
  dedupFirstAux [] rs

/-- The deduplicated `master_small` of the join: the master rows with a
derived SKU column, projected to (SKU, brand, license form) and
deduplicated. -/
def masterSmallOf (mt : Table) : List Row :=
  dedupFirst (mt.rows.map (fun m =>
    [("SKU", Value.str (skuOf (Row.get m "パーツ番号"))),
     ("ブランド", Row.get m "ブランド"),
     ("ライセンス形態", Row.get m "ライセンス形態")]))

/-- One quote row joined against `master_small`
(`merge(on="SKU", how="left")`): one output row per matching master
row, in master order; exactly one null-filled row when nothing
matches.  pandas merge matches null keys to null keys, as value
equality does here. -/
def joinOne (master : List Row) (r : Row) : List Row :=
  match master.filter (fun m => Row.get m "SKU" == Row.get r "SKU") with
  | [] => [Row.set (Row.set r "ブランド" Value.null) "ライセンス形態" Value.null]
  | m :: ms => (m :: ms).map (fun m1 =>
      Row.set (Row.set r "ブランド" (Row.get m1 "ブランド")) "ライセンス形態" (Row.get m1 "ライセンス形態"))

/-- Left-join the quote table to the deduplicated master on SKU, then
set license category := license form.  `KeyError` if the master lacks a
required column, or (from pandas merge) if the quote side has no SKU
column.  Modelled for quote tables that do not already carry a brand or
license-form column (the pipeline's case); pandas column suffixing on
collision is out of scope. -/
def attach_brand_and_license (qt mt : Table) : Except Err Table :=
  match masterRequired.filter (fun c => !(mt.cols.contains c)) with
  | [] =>
    if "SKU" ∈ qt.cols then
      let joined := qt.rows.flatMap (joinOne (masterSmallOf mt))
      let t1 : Table := { cols := qt.cols ++ ["ブランド", "ライセンス形態"], rows := joined }
      Except.ok (t1.setCol "ライセンスカテゴリー" (fun r => Row.get r "ライセンス形態"))
    else Except.error (Err.missingCols "merge key not found" ["SKU"])
  | m :: ms => Except.error (Err.missingCols "型番マスタに必要な列がありません" (m :: ms))

/-! ## `filter_ibm_software` (logic.py lines 70-84) -/

/-- `sku.str[0].isin(["D","E","X","Y"])`: first character of the SKU
rendered as text; an empty string has no first character and the row is
dropped (pandas `.str[0]` yields NaN there, and `isin` is false). -/
def isSwRow (r : Row) : Bool :=
  match (Value.toText (Row.get r "SKU")).data with
  | [] => false
  | c :: _ => c == 'D' || c == 'E' || c == 'X' || c == 'Y'

/-- Keep the rows whose SKU starts with a software prefix; `KeyError`
if the SKU column is absent. -/
def filter_ibm_software (t : Table) : Except Err Table :=
  if "SKU" ∈ t.cols then
    Except.ok { cols := t.cols, rows := t.rows.filter isSwRow }
  else
    Except.error (Err.missingCols "列『SKU』が存在しません。先に attach_sku() を呼んでください。" ["SKU"])

/-! ## `attach_amount_flag` (logic.py lines 87-106) -/

/-- The columns the amount-flag stage requires. -/
def flagRequired : List String := ["見積No", "小計"]

/-- Sum of the subtotal cells over the rows sharing a quote number
(`groupby("見積No", dropna=False)["小計"].sum()` read at one key;
null keys form their own group and null equals null here, exactly as
`dropna=False` grouping plus NaN-matching `isin` behave). -/
def groupSubtotal (rows : List Row) (k : Value) : Int :=
  ((rows.filter (fun r => Row.get r "見積No" == k)).map
    (fun r => Value.toNum (Row.get r "小計"))).sum

/-- Attach the per-group amount flag: "★" when the group's subtotal sum
strictly exceeds 2,000,000, "NG" otherwise.  The code computes the
per-group sums, takes the keys of the groups above the threshold
(`pivot[pivot > 2_000_000].index`) and marks membership
(`isin(high_ids)`); a row's key is among those ids exactly when its own
group sum exceeds the threshold, which is the form used here. -/
def attach_amount_flag (t : Table) : Except Err Table :=
  match flagRequired.filter (fun c => !(t.cols.contains c)) with
  | [] =>
    Except.ok (t.setCol "200万円UPフラグ" (fun r =>
      Value.str (if groupSubtotal t.rows (Row.get r "見積No") > 2000000 then "★" else "NG")))
  | m :: ms => Except.error (Err.missingCols "200万円UPフラグ付与に必要な列がありません" (m :: ms))

/-! ## `build_forecast_table` (logic.py lines 109-234) -/

/-- Value of a digit string in base 10. -/
def digitsVal (ds : List Char) : Nat :=
  ds.foldl (fun a c => 10 * a + (c.toNat - '0'.toNat)) 0

/-- Decimal-number parse: optional sign, integer digits, optional dot
and fractional digits, at least one digit overall, nothing else.
Returns (negative?, integer digits, fractional digits).  This is the
subset of `pd.to_numeric` input grammar the data exercises; exponent
forms, infinities and surrounding whitespace are not modelled. -/
def parseDecimal (s : String) : Option (Bool × List Char × List Char) :=
  let p : Bool × List Char :=
    match s.data with
    | '-' :: t => (true, t)
    | '+' :: t => (false, t)
    | cs => (false, cs)
  let ints := p.2.takeWhile Char.isDigit
  match p.2.dropWhile Char.isDigit with
  | [] => if ints.isEmpty then none else some (p.1, ints, [])
  | '.' :: rest2 =>
    let fracs := rest2.takeWhile Char.isDigit
    if (rest2.dropWhile Char.isDigit).isEmpty && !(ints.isEmpty && fracs.isEmpty) then
      some (p.1, ints, fracs)
    else none
  | _ => none

/-- `pd.to_numeric(x, errors="coerce").astype("Int64")` on one cell:
null stays null, an integer stays itself, a string parsing to an
integer-valued decimal becomes that integer, a non-parsing string
becomes null (`coerce`), and a string parsing to a number with a
nonzero fractional part makes the `Int64` cast raise (pandas refuses a
non-equivalent float-to-integer cast for the nullable Int64 dtype). -/
def coerceInt64 : Value → Except Err Value
  | Value.null => Except.ok Value.null
  | Value.num n => Except.ok (Value.num n)
  | Value.str s =>
    match parseDecimal s with
    | none => Except.ok Value.null
    | some (neg, ints, fracs) =>
      if fracs.all (fun c => c == '0') then
        Except.ok (Value.num (if neg then -(digitsVal ints : Int) else (digitsVal ints : Int)))
      else Except.error (Err.castErr "cannot safely cast non-equivalent float64 to int64")

/-- Apply `coerceInt64` to the cell of column `c` in every row,
stopping at the first cast error. -/
def coerceCells (c : String) : List Row → Except Err (List Row)
  | [] => Except.ok []
  | r :: rest =>
    match coerceInt64 (Row.get r c) with
    | Except.error e => Except.error e
    | Except.ok v =>
      match coerceCells c rest with
      | Except.error e => Except.error e
      | Except.ok rs => Except.ok (Row.set r c v :: rs)

/-- The `if col in tmp.columns: tmp[col] = pd.to_numeric(...)` loop body
for one column: coerce the column when present, leave the table alone
when absent. -/
def coerceCol (t : Table) (c : String) : Except Err Table :=
  if c ∈ t.cols then
    match coerceCells c t.rows with
    | Except.error e => Except.error e
    | Except.ok rs => Except.ok { cols := t.cols, rows := rs }
  else Except.ok t

/-- `pd.to_datetime(x, errors="coerce").dt.strftime("%Y-%m")` on one
cell, modelled for ISO `YYYY-MM...` date strings: the leading
year-month is kept when well formed, anything else parses to null
(`coerce`).  Other input formats pandas would accept are not exercised
by the pipeline's claims and are modelled as null. -/
def parsePeriod : Value → Value
  | Value.str s =>
    match s.data with
    | y1 :: y2 :: y3 :: y4 :: sep :: m1 :: m2 :: rest =>
      if y1.isDigit && y2.isDigit && y3.isDigit && y4.isDigit && sep == '-'
          && m1.isDigit && m2.isDigit
          && 1 ≤ 10 * (m1.toNat - '0'.toNat) + (m2.toNat - '0'.toNat)
          && 10 * (m1.toNat - '0'.toNat) + (m2.toNat - '0'.toNat) ≤ 12
          && (rest.isEmpty || rest.head? == some '-') then
        Value.str (String.mk [y1, y2, y3, y4, '-', m1, m2])
      else Value.null
    | _ => Value.null
  | _ => Value.null

/-- `classify_conf`: null maps to "", text containing 受注 to "High",
then text containing 概算 to "Low", anything else to "". -/
def classify_conf (v : Value) : String :=
  match v with
  | Value.null => ""
  | _ =>
    if strContains v.toText "受注" then "High"
    else if strContains v.toText "概算" then "Low"
    else ""

/-- `map_flag`: "★" renders as "○", everything else as "". -/
def map_flag (v : Value) : Value :=
  if v == Value.str "★" then Value.str "○" else Value.str ""

/-- `cols_internal`: the 29 columns selected into the forecast table
(the last three are derived inside the builder itself). -/
def forecastColsInternal : List String :=
  ["メーカ名", "見積作成日", "顧客名", "担当営業", "アシスタント名",
   "見積No", "版数", "件名", "ブランド", "メーカ型番", "SKU",
   "ライセンスカテゴリー", "商品名", "数量", "小計", "見積注意事項",
   "納入期日", "単価", "原単価", "粗利額", "原価小計", "粗利小計",
   "確度", "受注予定日", "受注有無", "エンドユーザー名",
   "時期", "確度分類", "200万FLAG"]

/-- The source columns whose absence makes `build_forecast_table`
fail: `cols_internal` minus the three columns the builder always
derives itself (時期, 確度分類, 200万FLAG). -/
def forecastRequiredSource : List String :=
  ["メーカ名", "見積作成日", "顧客名", "担当営業", "アシスタント名",
   "見積No", "版数", "件名", "ブランド", "メーカ型番", "SKU",
   "ライセンスカテゴリー", "商品名", "数量", "小計", "見積注意事項",
   "納入期日", "単価", "原単価", "粗利額", "原価小計", "粗利小計",
   "確度", "受注予定日", "受注有無", "エンドユーザー名"]

/-- The final forecast header (29 names; 確度 appears twice). -/
def forecastHeader : List String :=
  ["メーカ名", "見積作成日", "顧客名", "担当営業", "アシスタント名",
   "見積No", "版数", "件名", "ブランド", "メーカ型番", "SKU",
   "ライセンスカテゴリー", "商品名", "数量", "小計", "見積注意事項",
   "納入期日", "単価", "原単価", "粗利額", "原価小計", "粗利小計",
   "確度", "受注予定日", "受注有無", "エンドユーザー名",
   "時期", "確度",
   "200万円UPかどうかの判断（実データは200万円以上の案件のみピックアップします）"]

/-- Project a row onto `cols_internal` and relabel it with the final
header (`forecast = tmp[cols_internal]; forecast.columns = header`). -/
def forecastProjectRow (r : Row) : Row :=
  (forecastColsInternal.zip forecastHeader).map (fun p => (p.2, Row.get r p.1))

/-- Derivation of 時期 (`tmp["時期"] = ...`): year-month from the
quote-creation date when that column exists, the null column
otherwise. -/
def forecastT3 (t2 : Table) : Table :=
  if "見積作成日" ∈ t2.cols
  then t2.setCol "時期" (fun r => parsePeriod (Row.get r "見積作成日"))
  else t2.setCol "時期" (fun _ => Value.null)

/-- Derivation of 確度分類 (`tmp["確度分類"] = ...`): the confidence
classification when 確度 exists, the empty string otherwise. -/
def forecastT4 (t3 : Table) : Table :=
  if "確度" ∈ t3.cols
  then t3.setCol "確度分類" (fun r => Value.str (classify_conf (Row.get r "確度")))
  else t3.setCol "確度分類" (fun _ => Value.str "")

/-- Derivation of 200万FLAG (`tmp["200万FLAG"] = ...`): the display
marker when the amount flag exists, the empty string otherwise. -/
def forecastT5 (t4 : Table) : Table :=
  if "200万円UPフラグ" ∈ t4.cols
  then t4.setCol "200万FLAG" (fun r => map_flag (Row.get r "200万円UPフラグ"))
  else t4.setCol "200万FLAG" (fun _ => Value.str "")

/-- The internal forecast builder: coerce 見積No and 版数 toward
integers, derive 時期, 確度分類 and 200万FLAG, check `cols_internal`
for missing columns (raising a `KeyError` that lists them all), then
project and relabel. -/
def build_forecast_table (t : Table) : Except Err Table :=
  match coerceCol t "見積No" with
  | Except.error e => Except.error e
  | Except.ok t1 =>
    match coerceCol t1 "版数" with
    | Except.error e => Except.error e
    | Except.ok t2 =>
      match forecastColsInternal.filter
          (fun c => !((forecastT5 (forecastT4 (forecastT3 t2))).cols.contains c)) with
      | [] => Except.ok { cols := forecastHeader,
                          rows := (forecastT5 (forecastT4 (forecastT3 t2))).rows.map
                            forecastProjectRow }
      | m :: ms => Except.error (Err.missingCols "Forecastテーブル生成に必要な列が足りません" (m :: ms))

/-! ## `build_ibm_vad_forecast` (logic.py lines 237-337) -/

/-- The 13 source columns the VAD builder requires. -/
def vadRequired : List String :=
  ["見積作成日", "顧客名", "担当営業", "アシスタント名", "見積No",
   "ブランド", "SKU", "ライセンスカテゴリー", "商品名", "数量", "小計",
   "エンドユーザー名", "200万円UPフラグ"]

/-- The VAD output header (21 names). -/
def vadHeader : List String :=
  ["見積作成日", "顧客名", "担当営業", "アシスタント名", "見積No",
   "ブランド", "SKU", "ライセンスカテゴリ", "商品名", "数量", "小計",
   "EU", "案件時期", "案件確度", "その他コメント", "営業部確認",
   "PA番号", "カテゴリ", "チャレンジ", "担当", "PGS"]

/-- The 9 VAD output columns the builder fills with the empty string
("まだ持っていない項目はとりあえず空欄で出す"). -/
def vadPlaceholders : List String :=
  ["案件時期", "案件確度", "その他コメント", "営業部確認",
   "PA番号", "カテゴリ", "チャレンジ", "担当", "PGS"]

/-- Project one flagged row onto the VAD layout: 11 columns copied
under their source name, ライセンスカテゴリー relabelled
ライセンスカテゴリ, エンドユーザー名 relabelled EU, and the 9
placeholder columns set to the empty string — the net effect of the
`*_internal` columns, `d[cols_internal]` and the header rename. -/
def vadProjectRow (r : Row) : Row :=
  [("見積作成日", Row.get r "見積作成日"),
   ("顧客名", Row.get r "顧客名"),
   ("担当営業", Row.get r "担当営業"),
   ("アシスタント名", Row.get r "アシスタント名"),
   ("見積No", Row.get r "見積No"),
   ("ブランド", Row.get r "ブランド"),
   ("SKU", Row.get r "SKU"),
   ("ライセンスカテゴリ", Row.get r "ライセンスカテゴリー"),
   ("商品名", Row.get r "商品名"),
   ("数量", Row.get r "数量"),
   ("小計", Row.get r "小計"),
   ("EU", Row.get r "エンドユーザー名"),
   ("案件時期", Value.str ""),
   ("案件確度", Value.str ""),
   ("その他コメント", Value.str ""),
   ("営業部確認", Value.str ""),
   ("PA番号", Value.str ""),
   ("カテゴリ", Value.str ""),
   ("チャレンジ", Value.str ""),
   ("担当", Value.str ""),
   ("PGS", Value.str "")]

/-- Build the VAD submission table: check the 13 required columns
(`KeyError` listing every missing one), keep only rows whose amount
flag is "★", project and relabel. -/
def build_ibm_vad_forecast (t : Table) : Except Err Table :=
  match vadRequired.filter (fun c => !(t.cols.contains c)) with
  | [] =>
    Except.ok { cols := vadHeader,
                rows := (t.rows.filter (fun r => Row.get r "200万円UPフラグ" == Value.str "★")).map
                  vadProjectRow }
  | m :: ms => Except.error (Err.missingCols "VAD Forecast生成に必要な列が足りません" (m :: ms))

/-! ## needs-review selection (`tools/forecast_tool.py` line 83) -/

/-- `df[df["ブランド"].isna() | df["ライセンスカテゴリー"].isna()]`. -/
def needs_review (t : Table) : Table :=
  { cols := t.cols,
    rows := t.rows.filter (fun r =>
      Value.isNull (Row.get r "ブランド") || Value.isNull (Row.get r "ライセンスカテゴリー")) }

/-! ## Basic lemmas about rows and tables -/

theorem Row.get_set_self (r : Row) (c : String) (v : Value) :
    Row.get (Row.set r c v) c = v := by
  induction r with
  | nil => simp [Row.set, Row.get]
  | cons p rest ih =>
    by_cases h : p.1 = c
    · simp [Row.set, Row.get, h]
    · simpa [Row.set, Row.get, h] using ih

theorem Row.get_set_ne (r : Row) {c c' : String} (v : Value) (h : c' ≠ c) :
    Row.get (Row.set r c v) c' = Row.get r c' := by
  have h3 : (c == c') = false := by simpa using Ne.symm h
  induction r with
  | nil => simp [Row.set, Row.get, h3]
  | cons p rest ih =>
    by_cases hp : p.1 = c
    · have h1 : (p.1 == c) = true := by simpa using hp
      have h2 : (p.1 == c') = false := by simpa using fun hh : p.1 = c' => h (hh ▸ hp)
      simp [Row.set, Row.get, h1, h2, h3, ih]
    · have h1 : (p.1 == c) = false := by simpa using hp
      by_cases hpc : p.1 = c'
      · have h2 : (p.1 == c') = true := by simpa using hpc
        simp [Row.set, Row.get, h1, h2]
      · have h2 : (p.1 == c') = false := by simpa using hpc
        simp [Row.set, Row.get, h1, h2, ih]

/-- `==` from a lawful `BEq` agrees with decidable propositional
equality. -/
theorem beq_eq_decide {α : Type} [BEq α] [LawfulBEq α] [DecidableEq α] (a b : α) :
    (a == b) = decide (a = b) := by
  by_cases h : a = b
  · subst h
    simp
  · simp [h]

theorem Table.setCol_rows (t : Table) (c : String) (f : Row → Value) :
    (t.setCol c f).rows = t.rows.map (fun r => Row.set r c (f r)) := rfl

theorem Table.setCol_contains (t : Table) (c : String) (f : Row → Value) (x : String) :
    (t.setCol c f).cols.contains x = (t.cols.contains x || x == c) := by
  by_cases h : c ∈ t.cols
  · by_cases hx : x = c
    · subst hx
      simp [Table.setCol, h]
    · simp [Table.setCol, h, hx]
  · by_cases hx : x = c
    · subst hx
      simp [Table.setCol, h]
    · simp [Table.setCol, h, hx]

theorem contains_true_of_mem {l : List String} {a : String} (h : a ∈ l) :
    l.contains a = true := by
  simpa using h

/-- A required-column list filters to empty against a header that has
every required column. -/
theorem missing_filter_nil {req cols : List String} (h : ∀ c ∈ req, c ∈ cols) :
    req.filter (fun c => !(cols.contains c)) = [] := by
  rw [List.filter_eq_nil_iff]
  intro a ha
  simpa using h a ha

/-! ## C7 / C8: the manufacturer filter -/

/-- C7: `filter_ibm_manufacturer` raises a missing-column error iff the
manufacturer-name column is absent, and otherwise returns exactly the
subset of input rows whose manufacturer name either exactly equals one
of the fixed enumerated spelling variants or contains the
case-sensitive substring "IBM" (in input order, with the header
unchanged). -/
theorem filter_ibm_manufacturer_spec (t : Table) :
    ((∃ e, filter_ibm_manufacturer t = Except.error e) ↔ "メーカ名" ∉ t.cols) ∧
    ("メーカ名" ∈ t.cols →
      ∃ t', filter_ibm_manufacturer t = Except.ok t' ∧ t'.cols = t.cols ∧
        t'.rows = t.rows.filter (fun r =>
          (ibmPatterns.map Value.str).contains (Row.get r "メーカ名")
          || strContains (Value.toText (Row.get r "メーカ名")) "IBM")) := by
  constructor
  · constructor
    · rintro ⟨e, he⟩ hmem
      simp [filter_ibm_manufacturer, hmem] at he
    · intro hmem
      exact ⟨Err.missingCols "列『メーカ名』が見積データに存在しません。" ["メーカ名"],
        by simp [filter_ibm_manufacturer, hmem]⟩
  · intro hmem
    refine ⟨{ cols := t.cols,
              rows := t.rows.filter (fun r =>
                ibmMask (Row.get r "メーカ名") || ibmExtraMask (Row.get r "メーカ名")) },
            by simp [filter_ibm_manufacturer, hmem], rfl, ?_⟩
    refine List.filter_congr ?_
    intro r _
    have hmask : ∀ v : Value,
        ibmMask v = (ibmPatterns.map Value.str).contains v := by
      intro v
      simp [ibmMask, ibmPatterns, List.contains, beq_eq_decide]
    rw [hmask]
    rfl

/-- Manufacturer-filter witness input (used by the C7 and C8
witnesses). -/
def ibmIdemInput : Table :=
  ⟨["メーカ名", "小計"],
   [[("メーカ名", Value.str "日本IBM"), ("小計", Value.num 5)],
    [("メーカ名", Value.str "富士通"), ("小計", Value.num 7)],
    [("メーカ名", Value.str "日本アイ・ビー・エム"), ("小計", Value.num 9)]]⟩

/-- C8: the manufacturer filter is idempotent — filtering the filtered
table returns it unchanged — and its result keeps the input header and
is a sublist (order-preserving selection) of the input rows; the input
table itself is not modified (every stage is a pure function of its
argument here, mirroring the `df.copy()` discipline of the source). -/
theorem filter_ibm_manufacturer_idem (t t' : Table)
    (h : filter_ibm_manufacturer t = Except.ok t') :
    filter_ibm_manufacturer t' = Except.ok t' ∧
    List.Sublist t'.rows t.rows ∧ t'.cols = t.cols := by
  by_cases hmem : "メーカ名" ∈ t.cols
  · simp only [filter_ibm_manufacturer, hmem, if_true, Except.ok.injEq] at h
    subst h
    refine ⟨?_, List.filter_sublist t.rows, rfl⟩
    simp only [filter_ibm_manufacturer, hmem, if_true]
    have hff : List.filter
        (fun r => ibmMask (Row.get r "メーカ名") || ibmExtraMask (Row.get r "メーカ名"))
        (List.filter
          (fun r => ibmMask (Row.get r "メーカ名") || ibmExtraMask (Row.get r "メーカ名"))
          t.rows)
        = List.filter
            (fun r => ibmMask (Row.get r "メーカ名") || ibmExtraMask (Row.get r "メーカ名"))
            t.rows := by
      rw [List.filter_filter]
      exact List.filter_congr (fun a _ => Bool.and_self _)
    rw [hff]
  · simp [filter_ibm_manufacturer, hmem] at h

/-- C8 witness: a concrete run of the filter followed by the idempotence
theorem at its output. -/
theorem filter_ibm_manufacturer_idem_witness :
    filter_ibm_manufacturer ibmIdemInput = Except.ok
      ⟨["メーカ名", "小計"],
       [[("メーカ名", Value.str "日本IBM"), ("小計", Value.num 5)],
        [("メーカ名", Value.str "日本アイ・ビー・エム"), ("小計", Value.num 9)]]⟩ ∧
    (filter_ibm_manufacturer
      ⟨["メーカ名", "小計"],
       [[("メーカ名", Value.str "日本IBM"), ("小計", Value.num 5)],
        [("メーカ名", Value.str "日本アイ・ビー・エム"), ("小計", Value.num 9)]]⟩ = Except.ok
      ⟨["メーカ名", "小計"],
       [[("メーカ名", Value.str "日本IBM"), ("小計", Value.num 5)],
        [("メーカ名", Value.str "日本アイ・ビー・エム"), ("小計", Value.num 9)]]⟩ ∧
     List.Sublist
      [[("メーカ名", Value.str "日本IBM"), ("小計", Value.num 5)],
       [("メーカ名", Value.str "日本アイ・ビー・エム"), ("小計", Value.num 9)]]
      ibmIdemInput.rows ∧
     (["メーカ名", "小計"] : List String) = ibmIdemInput.cols) :=
  ⟨by decide, filter_ibm_manufacturer_idem ibmIdemInput _ (by decide)⟩

/-- C7 witness: the filter applied where the column exists, plus the
error characterization at a table lacking it. -/
theorem filter_ibm_manufacturer_spec_witness :
    ("メーカ名" ∈ ibmIdemInput.cols ∧
     ∃ t', filter_ibm_manufacturer ibmIdemInput = Except.ok t' ∧
       t'.cols = ibmIdemInput.cols ∧
       t'.rows = ibmIdemInput.rows.filter (fun r =>
         (ibmPatterns.map Value.str).contains (Row.get r "メーカ名")
         || strContains (Value.toText (Row.get r "メーカ名")) "IBM")) ∧
    ((∃ e, filter_ibm_manufacturer ⟨["小計"], []⟩ = Except.error e) ↔
      "メーカ名" ∉ (⟨["小計"], []⟩ : Table).cols) :=
  ⟨⟨by decide, (filter_ibm_manufacturer_spec ibmIdemInput).2 (by decide)⟩,
   (filter_ibm_manufacturer_spec ⟨["小計"], []⟩).1⟩

/-! ## C9: the software-SKU filter -/

/-- C9: `filter_ibm_software` raises a missing-column error iff the SKU
column is absent (so SKU derivation must already have run), and
otherwise — with no error possible for any row content — returns
exactly the rows whose SKU text has first character D, E, X or Y. -/
theorem filter_ibm_software_spec (t : Table) :
    ((∃ e, filter_ibm_software t = Except.error e) ↔ "SKU" ∉ t.cols) ∧
    ("SKU" ∈ t.cols →
      ∃ t', filter_ibm_software t = Except.ok t' ∧ t'.cols = t.cols ∧
        t'.rows = t.rows.filter (fun r =>
          match (Value.toText (Row.get r "SKU")).data.head? with
          | some c => (['D', 'E', 'X', 'Y'] : List Char).contains c
          | none => false)) := by
  constructor
  · constructor
    · rintro ⟨e, he⟩ hmem
      simp [filter_ibm_software, hmem] at he
    · intro hmem
      exact ⟨Err.missingCols "列『SKU』が存在しません。先に attach_sku() を呼んでください。" ["SKU"],
        by simp [filter_ibm_software, hmem]⟩
  · intro hmem
    refine ⟨{ cols := t.cols, rows := t.rows.filter isSwRow },
            by simp [filter_ibm_software, hmem], rfl, ?_⟩
    refine List.filter_congr ?_
    intro r _
    cases hd : (Value.toText (Row.get r "SKU")).data with
    | nil => simp [isSwRow, hd]
    | cons c cs => simp [isSwRow, hd, List.contains, Bool.or_assoc, beq_eq_decide]

/-- C9 witness input: SKU column present with a kept and a dropped row. -/
def swInput : Table :=
  ⟨["SKU"], [[("SKU", Value.str "D123456")], [("SKU", Value.str "A123456")], [("SKU", Value.null)]]⟩

/-- C9 witness: the filter at a concrete table with SKU present, plus
the error characterization where it is absent. -/
theorem filter_ibm_software_spec_witness :
    ("SKU" ∈ swInput.cols ∧
     ∃ t', filter_ibm_software swInput = Except.ok t' ∧ t'.cols = swInput.cols ∧
       t'.rows = swInput.rows.filter (fun r =>
         match (Value.toText (Row.get r "SKU")).data.head? with
         | some c => (['D', 'E', 'X', 'Y'] : List Char).contains c
         | none => false)) ∧
    ((∃ e, filter_ibm_software ⟨["メーカ名"], []⟩ = Except.error e) ↔
      "SKU" ∉ (⟨["メーカ名"], []⟩ : Table).cols) :=
  ⟨⟨by decide, (filter_ibm_software_spec swInput).2 (by decide)⟩,
   (filter_ibm_software_spec ⟨["メーカ名"], []⟩).1⟩

/-! ## C2: SKU derivation -/

/-- C2: `attach_sku` raises a missing-column error iff the part-number
column is absent; otherwise it adds to every row a SKU column equal to
the first 7 characters of the part number coerced to text.  Numeric
cells are exact integers here and coerce to their full decimal numeral,
so no leading digit is lost and no scientific notation appears. -/
theorem attach_sku_spec (t : Table) :
    ("メーカ型番" ∈ t.cols →
      ∃ t', attach_sku t = Except.ok t' ∧
        t'.cols = (if "SKU" ∈ t.cols then t.cols else t.cols ++ ["SKU"]) ∧
        t'.rows = t.rows.map (fun r =>
          Row.set r "SKU" (Value.str (String.mk ((Value.toText (Row.get r "メーカ型番")).data.take 7)))) ∧
        ∀ r' ∈ t'.rows, ∃ r ∈ t.rows,
          Row.get r' "SKU" = Value.str (skuOf (Row.get r "メーカ型番"))) ∧
    ((∃ e, attach_sku t = Except.error e) ↔ "メーカ型番" ∉ t.cols) := by
  constructor
  · intro hmem
    refine ⟨t.setCol "SKU" (fun r => Value.str (skuOf (Row.get r "メーカ型番"))),
            by simp [attach_sku, hmem], rfl, rfl, ?_⟩
    intro r' hr'
    rw [Table.setCol_rows] at hr'
    obtain ⟨r, hr, hset⟩ := List.mem_map.mp hr'
    exact ⟨r, hr, by rw [← hset, Row.get_set_self]⟩
  · constructor
    · rintro ⟨e, he⟩ hmem
      simp [attach_sku, hmem] at he
    · intro hmem
      exact ⟨Err.missingCols "列『メーカ型番』が見積データに存在しません。" ["メーカ型番"],
        by simp [attach_sku, hmem]⟩

/-- C2 witness input: a string part number and a numeric one whose
leading digits must survive. -/
def skuInput : Table :=
  ⟨["メーカ型番"],
   [[("メーカ型番", Value.str "D1234567XYZ")], [("メーカ型番", Value.num 9876543210)]]⟩

/-- C2 witness: SKU derivation at a concrete table (including a numeric
part number kept in full decimal), plus the error characterization at a
table lacking the part-number column. -/
theorem attach_sku_spec_witness :
    ("メーカ型番" ∈ skuInput.cols ∧
     ∃ t', attach_sku skuInput = Except.ok t' ∧
       t'.cols = (if "SKU" ∈ skuInput.cols then skuInput.cols else skuInput.cols ++ ["SKU"]) ∧
       t'.rows = skuInput.rows.map (fun r =>
         Row.set r "SKU" (Value.str (String.mk ((Value.toText (Row.get r "メーカ型番")).data.take 7)))) ∧
       ∀ r' ∈ t'.rows, ∃ r ∈ skuInput.rows,
         Row.get r' "SKU" = Value.str (skuOf (Row.get r "メーカ型番"))) ∧
    ((∃ e, attach_sku ⟨["小計"], []⟩ = Except.error e) ↔
      "メーカ型番" ∉ (⟨["小計"], []⟩ : Table).cols) :=
  ⟨⟨by decide, (attach_sku_spec skuInput).1 (by decide)⟩,
   (attach_sku_spec ⟨["小計"], []⟩).2⟩

/-! ## C1: the amount flag -/

/-- A cell that is a number or null (the shape subtotal cells of a
quotation table have; pandas sums them numerically, skipping nulls). -/
def numOrNull (v : Value) : Bool :=
  match v with
  | Value.str _ => false
  | _ => true

theorem isNull_iff (v : Value) : Value.isNull v = true ↔ v = Value.null := by
  cases v <;> simp [Value.isNull]

/-- C1: on a quotation table carrying the quote-number and subtotal
columns (with numeric-or-null subtotals), `attach_amount_flag` gives
every row the marker "★" iff the sum of subtotal over all input rows
sharing that row's quote number (null quote numbers grouping together,
not dropped) strictly exceeds 2,000,000, and "NG" otherwise — so a
group summing to exactly 2,000,000 is not flagged — and rows of one
group all receive the same marker. -/
theorem amount_flag_spec (t : Table)
    (hq : "見積No" ∈ t.cols) (hs : "小計" ∈ t.cols)
    (_hnum : ∀ r ∈ t.rows, numOrNull (Row.get r "小計") = true) :
    ∃ t', attach_amount_flag t = Except.ok t' ∧
      t'.rows = t.rows.map (fun r => Row.set r "200万円UPフラグ"
        (Value.str (if groupSubtotal t.rows (Row.get r "見積No") > 2000000 then "★" else "NG"))) ∧
      (∀ r' ∈ t'.rows,
        (Row.get r' "200万円UPフラグ" = Value.str "★" ↔
          groupSubtotal t.rows (Row.get r' "見積No") > 2000000) ∧
        (Row.get r' "200万円UPフラグ" = Value.str "NG" ↔
          ¬ groupSubtotal t.rows (Row.get r' "見積No") > 2000000)) ∧
      (∀ r1 ∈ t'.rows, ∀ r2 ∈ t'.rows,
        Row.get r1 "見積No" = Row.get r2 "見積No" →
        Row.get r1 "200万円UPフラグ" = Row.get r2 "200万円UPフラグ") := by
  have hmiss : flagRequired.filter (fun c => !(t.cols.contains c)) = [] := by
    refine missing_filter_nil ?_
    intro c hc
    simp only [flagRequired, List.mem_cons, List.not_mem_nil, or_false] at hc
    rcases hc with rfl | rfl
    · exact hq
    · exact hs
  have hred : attach_amount_flag t = Except.ok (t.setCol "200万円UPフラグ" (fun r =>
      Value.str (if groupSubtotal t.rows (Row.get r "見積No") > 2000000 then "★" else "NG"))) := by
    unfold attach_amount_flag
    rw [hmiss]
  refine ⟨_, hred, rfl, ?_, ?_⟩
  · intro r' hr'
    rw [Table.setCol_rows] at hr'
    obtain ⟨r, hr, hset⟩ := List.mem_map.mp hr'
    have hkey : Row.get r' "見積No" = Row.get r "見積No" := by
      rw [← hset]
      exact Row.get_set_ne r _ (by decide)
    have hflag : Row.get r' "200万円UPフラグ"
        = Value.str (if groupSubtotal t.rows (Row.get r "見積No") > 2000000 then "★" else "NG") := by
      rw [← hset]
      exact Row.get_set_self r _ _
    rw [hkey, hflag]
    by_cases hgt : groupSubtotal t.rows (Row.get r "見積No") > 2000000
    · simp [hgt]
    · simp [hgt]
  · intro r1 h1 r2 h2 hkey
    rw [Table.setCol_rows] at h1 h2
    obtain ⟨a, ha, hseta⟩ := List.mem_map.mp h1
    obtain ⟨b, hb, hsetb⟩ := List.mem_map.mp h2
    have hka : Row.get a "見積No" = Row.get b "見積No" := by
      rw [← hseta, ← hsetb] at hkey
      rw [← Row.get_set_ne a (Value.str (if groupSubtotal t.rows (Row.get a "見積No") > 2000000 then "★" else "NG")) (show "見積No" ≠ "200万円UPフラグ" by decide),
          ← Row.get_set_ne b (Value.str (if groupSubtotal t.rows (Row.get b "見積No") > 2000000 then "★" else "NG")) (show "見積No" ≠ "200万円UPフラグ" by decide)]
      exact hkey
    rw [← hseta, ← hsetb, Row.get_set_self, Row.get_set_self, hka]

/-- C1 witness input: one group of two rows summing over the threshold
and a null-keyed group summing to exactly 2,000,000. -/
def flagInput : Table :=
  ⟨["見積No", "小計"],
   [[("見積No", Value.num 1), ("小計", Value.num 1200000)],
    [("見積No", Value.num 1), ("小計", Value.num 900000)],
    [("見積No", Value.null), ("小計", Value.num 2000000)]]⟩

/-- C1 witness: the amount-flag theorem applied at a concrete table
whose first group sums to 2,100,000 (flagged) and whose null-keyed
group sums to exactly 2,000,000 (not flagged). -/
theorem amount_flag_spec_witness :
    ("見積No" ∈ flagInput.cols ∧ "小計" ∈ flagInput.cols ∧
      ∀ r ∈ flagInput.rows, numOrNull (Row.get r "小計") = true) ∧
    (∃ t', attach_amount_flag flagInput = Except.ok t' ∧
      t'.rows = flagInput.rows.map (fun r => Row.set r "200万円UPフラグ"
        (Value.str (if groupSubtotal flagInput.rows (Row.get r "見積No") > 2000000 then "★" else "NG"))) ∧
      (∀ r' ∈ t'.rows,
        (Row.get r' "200万円UPフラグ" = Value.str "★" ↔
          groupSubtotal flagInput.rows (Row.get r' "見積No") > 2000000) ∧
        (Row.get r' "200万円UPフラグ" = Value.str "NG" ↔
          ¬ groupSubtotal flagInput.rows (Row.get r' "見積No") > 2000000)) ∧
      (∀ r1 ∈ t'.rows, ∀ r2 ∈ t'.rows,
        Row.get r1 "見積No" = Row.get r2 "見積No" →
        Row.get r1 "200万円UPフラグ" = Row.get r2 "200万円UPフラグ")) :=
  ⟨⟨by decide, by decide, by decide⟩,
   amount_flag_spec flagInput (by decide) (by decide) (by decide)⟩

/-! ## C6: the needs-review selection -/

/-- C6: the needs-review table is exactly the rows of the enriched
table whose brand or license category is null (a sublist, so a subset
preserving order, with the header unchanged), and a row that is both
amount-flagged and brand-null appears in the needs-review table and —
projected — in the VAD table as well. -/
theorem needs_review_spec (t : Table) (hreq : ∀ c ∈ vadRequired, c ∈ t.cols) :
    (needs_review t).cols = t.cols ∧
    List.Sublist (needs_review t).rows t.rows ∧
    (∀ r ∈ (needs_review t).rows,
      Row.get r "ブランド" = Value.null ∨ Row.get r "ライセンスカテゴリー" = Value.null) ∧
    (∀ r ∈ t.rows,
      (Row.get r "ブランド" = Value.null ∨ Row.get r "ライセンスカテゴリー" = Value.null) →
      r ∈ (needs_review t).rows) ∧
    (∀ r ∈ t.rows, Row.get r "200万円UPフラグ" = Value.str "★" →
      Row.get r "ブランド" = Value.null →
      r ∈ (needs_review t).rows ∧
      ∃ t', build_ibm_vad_forecast t = Except.ok t' ∧ vadProjectRow r ∈ t'.rows) := by
  have hmiss : vadRequired.filter (fun c => !(t.cols.contains c)) = [] :=
    missing_filter_nil hreq
  have hred : build_ibm_vad_forecast t = Except.ok
      ⟨vadHeader, (t.rows.filter (fun r => Row.get r "200万円UPフラグ" == Value.str "★")).map
        vadProjectRow⟩ := by
    unfold build_ibm_vad_forecast
    rw [hmiss]
  refine ⟨rfl, List.filter_sublist t.rows, ?_, ?_, ?_⟩
  · intro r hr
    obtain ⟨_, hcond⟩ := List.mem_filter.mp hr
    rcases Bool.or_eq_true _ _ |>.mp hcond with hb | hl
    · exact Or.inl ((isNull_iff _).mp hb)
    · exact Or.inr ((isNull_iff _).mp hl)
  · intro r hr hnull
    refine List.mem_filter.mpr ⟨hr, ?_⟩
    rcases hnull with hb | hl
    · simp [hb, Value.isNull]
    · simp [hl, Value.isNull]
  · intro r hr hflag hbrand
    refine ⟨List.mem_filter.mpr ⟨hr, by simp [hbrand, Value.isNull]⟩, _, hred, ?_⟩
    refine List.mem_map.mpr ⟨r, List.mem_filter.mpr ⟨hr, by simp [hflag]⟩, rfl⟩

/-- C6 witness input: an enriched table with one flagged-and-unmatched
row (null brand), one flagged matched row, and one unflagged unmatched
row. -/
def reviewInput : Table :=
  ⟨vadRequired,
   [[("見積作成日", Value.str "2025-01-10"), ("顧客名", Value.str "客A"),
     ("担当営業", Value.str "営A"), ("アシスタント名", Value.str "アA"),
     ("見積No", Value.num 1), ("ブランド", Value.null), ("SKU", Value.str "D123456"),
     ("ライセンスカテゴリー", Value.null), ("商品名", Value.str "品A"),
     ("数量", Value.num 2), ("小計", Value.num 2100000),
     ("エンドユーザー名", Value.str "EU-A"), ("200万円UPフラグ", Value.str "★")],
    [("見積作成日", Value.str "2025-01-11"), ("顧客名", Value.str "客B"),
     ("担当営業", Value.str "営B"), ("アシスタント名", Value.str "アB"),
     ("見積No", Value.num 2), ("ブランド", Value.str "BR"), ("SKU", Value.str "E123456"),
     ("ライセンスカテゴリー", Value.str "LC"), ("商品名", Value.str "品B"),
     ("数量", Value.num 1), ("小計", Value.num 3000000),
     ("エンドユーザー名", Value.str "EU-B"), ("200万円UPフラグ", Value.str "★")],
    [("見積作成日", Value.str "2025-01-12"), ("顧客名", Value.str "客C"),
     ("担当営業", Value.str "営C"), ("アシスタント名", Value.str "アC"),
     ("見積No", Value.num 3), ("ブランド", Value.null), ("SKU", Value.str "X123456"),
     ("ライセンスカテゴリー", Value.null), ("商品名", Value.str "品C"),
     ("数量", Value.num 1), ("小計", Value.num 100), ("エンドユーザー名", Value.str "EU-C"),
     ("200万円UPフラグ", Value.str "NG")]]⟩

/-- C6 witness: the needs-review theorem applied at a concrete
enriched table. -/
theorem needs_review_spec_witness :
    (∀ c ∈ vadRequired, c ∈ reviewInput.cols) ∧
    ((needs_review reviewInput).cols = reviewInput.cols ∧
     List.Sublist (needs_review reviewInput).rows reviewInput.rows ∧
     (∀ r ∈ (needs_review reviewInput).rows,
       Row.get r "ブランド" = Value.null ∨ Row.get r "ライセンスカテゴリー" = Value.null) ∧
     (∀ r ∈ reviewInput.rows,
       (Row.get r "ブランド" = Value.null ∨ Row.get r "ライセンスカテゴリー" = Value.null) →
       r ∈ (needs_review reviewInput).rows) ∧
     (∀ r ∈ reviewInput.rows, Row.get r "200万円UPフラグ" = Value.str "★" →
       Row.get r "ブランド" = Value.null →
       r ∈ (needs_review reviewInput).rows ∧
       ∃ t', build_ibm_vad_forecast reviewInput = Except.ok t' ∧ vadProjectRow r ∈ t'.rows)) :=
  ⟨by decide, needs_review_spec reviewInput (by decide)⟩

/-! ## C4: the VAD projection -/

/-- Rows of a successful stage result (empty on error). -/
def okRows (e : Except Err Table) : List Row :=
  match e with
  | Except.ok u => u.rows
  | Except.error _ => []

/-- Header of a successful stage result (empty on error). -/
def okCols (e : Except Err Table) : List String :=
  match e with
  | Except.ok u => u.cols
  | Except.error _ => []

/-- C4 counterexample input: one flagged row in which every cell is a
distinct non-empty string or number. -/
def vadCxInput : Table :=
  ⟨vadRequired,
   [[("見積作成日", Value.str "2025-02-01"), ("顧客名", Value.str "客1"),
     ("担当営業", Value.str "営1"), ("アシスタント名", Value.str "ア1"),
     ("見積No", Value.num 77), ("ブランド", Value.str "BR1"), ("SKU", Value.str "D765432"),
     ("ライセンスカテゴリー", Value.str "LC1"), ("商品名", Value.str "品1"),
     ("数量", Value.num 3), ("小計", Value.num 2500000),
     ("エンドユーザー名", Value.str "EU1"), ("200万円UPフラグ", Value.str "★")]]⟩

/-- C4 counterexample: the 13th VAD output column (案件時期, deal
timing) is the empty string although no input cell is empty, so it is a
placeholder carrying no input data: the output is 12 real columns
followed by 9 always-empty placeholder columns, not 13 followed by 8 as
the claim counts them. -/
theorem vad_thirteen_real_cx :
    (okCols (build_ibm_vad_forecast vadCxInput)).get? 12 = some "案件時期" ∧
    (okRows (build_ibm_vad_forecast vadCxInput)).length = 1 ∧
    (okRows (build_ibm_vad_forecast vadCxInput)).all
      (fun r => Row.get r "案件時期" == Value.str "") = true ∧
    vadCxInput.rows.all (fun r => r.all (fun p => !(p.2 == Value.str ""))) = true := by
  decide

/-- C4 (amended): on inputs with the 13 required source columns,
`build_ibm_vad_forecast` keeps exactly the rows whose amount flag is
"★", projects them onto 12 real columns (11 copied under their source
meaning plus the end-user column relabelled EU) followed by 9
placeholder columns whose every cell is the empty string, and the
output header is exactly the specified 21-name VAD order. -/
theorem vad_projection_spec (t : Table) (hreq : ∀ c ∈ vadRequired, c ∈ t.cols) :
    ∃ t', build_ibm_vad_forecast t = Except.ok t' ∧
      t'.cols = ["見積作成日", "顧客名", "担当営業", "アシスタント名", "見積No",
        "ブランド", "SKU", "ライセンスカテゴリ", "商品名", "数量", "小計",
        "EU", "案件時期", "案件確度", "その他コメント", "営業部確認",
        "PA番号", "カテゴリ", "チャレンジ", "担当", "PGS"] ∧
      t'.rows = (t.rows.filter (fun r => Row.get r "200万円UPフラグ" == Value.str "★")).map
        vadProjectRow ∧
      (∀ r' ∈ t'.rows, ∀ c ∈ vadPlaceholders, Row.get r' c = Value.str "") ∧
      (∀ r ∈ t.rows, Row.get r "200万円UPフラグ" = Value.str "★" →
        vadProjectRow r ∈ t'.rows) ∧
      (∀ r' ∈ t'.rows, ∃ r ∈ t.rows,
        Row.get r "200万円UPフラグ" = Value.str "★" ∧ r' = vadProjectRow r) ∧
      (∀ r : Row,
        Row.get (vadProjectRow r) "見積作成日" = Row.get r "見積作成日" ∧
        Row.get (vadProjectRow r) "顧客名" = Row.get r "顧客名" ∧
        Row.get (vadProjectRow r) "担当営業" = Row.get r "担当営業" ∧
        Row.get (vadProjectRow r) "アシスタント名" = Row.get r "アシスタント名" ∧
        Row.get (vadProjectRow r) "見積No" = Row.get r "見積No" ∧
        Row.get (vadProjectRow r) "ブランド" = Row.get r "ブランド" ∧
        Row.get (vadProjectRow r) "SKU" = Row.get r "SKU" ∧
        Row.get (vadProjectRow r) "ライセンスカテゴリ" = Row.get r "ライセンスカテゴリー" ∧
        Row.get (vadProjectRow r) "商品名" = Row.get r "商品名" ∧
        Row.get (vadProjectRow r) "数量" = Row.get r "数量" ∧
        Row.get (vadProjectRow r) "小計" = Row.get r "小計" ∧
        Row.get (vadProjectRow r) "EU" = Row.get r "エンドユーザー名") := by
  have hmiss : vadRequired.filter (fun c => !(t.cols.contains c)) = [] :=
    missing_filter_nil hreq
  have hred : build_ibm_vad_forecast t = Except.ok
      ⟨vadHeader, (t.rows.filter (fun r => Row.get r "200万円UPフラグ" == Value.str "★")).map
        vadProjectRow⟩ := by
    unfold build_ibm_vad_forecast
    rw [hmiss]
  refine ⟨_, hred, rfl, rfl, ?_, ?_, ?_, ?_⟩
  · intro r' hr' c hc
    obtain ⟨r, _, hproj⟩ := List.mem_map.mp hr'
    rw [← hproj]
    fin_cases hc <;> rfl
  · intro r hr hflag
    exact List.mem_map.mpr ⟨r, List.mem_filter.mpr ⟨hr, by simp [hflag]⟩, rfl⟩
  · intro r' hr'
    obtain ⟨r, hrf, hproj⟩ := List.mem_map.mp hr'
    obtain ⟨hr, hcond⟩ := List.mem_filter.mp hrf
    exact ⟨r, hr, by simpa using hcond, hproj.symm⟩
  · intro r
    exact ⟨rfl, rfl, rfl, rfl, rfl, rfl, rfl, rfl, rfl, rfl, rfl, rfl⟩

/-- C4 witness: the amended VAD projection theorem applied at the
concrete flagged one-row table. -/
theorem vad_projection_spec_witness :
    (∀ c ∈ vadRequired, c ∈ vadCxInput.cols) ∧
    (∃ t', build_ibm_vad_forecast vadCxInput = Except.ok t' ∧
      t'.cols = ["見積作成日", "顧客名", "担当営業", "アシスタント名", "見積No",
        "ブランド", "SKU", "ライセンスカテゴリ", "商品名", "数量", "小計",
        "EU", "案件時期", "案件確度", "その他コメント", "営業部確認",
        "PA番号", "カテゴリ", "チャレンジ", "担当", "PGS"] ∧
      t'.rows = (vadCxInput.rows.filter
        (fun r => Row.get r "200万円UPフラグ" == Value.str "★")).map vadProjectRow ∧
      (∀ r' ∈ t'.rows, ∀ c ∈ vadPlaceholders, Row.get r' c = Value.str "") ∧
      (∀ r ∈ vadCxInput.rows, Row.get r "200万円UPフラグ" = Value.str "★" →
        vadProjectRow r ∈ t'.rows) ∧
      (∀ r' ∈ t'.rows, ∃ r ∈ vadCxInput.rows,
        Row.get r "200万円UPフラグ" = Value.str "★" ∧ r' = vadProjectRow r) ∧
      (∀ r : Row,
        Row.get (vadProjectRow r) "見積作成日" = Row.get r "見積作成日" ∧
        Row.get (vadProjectRow r) "顧客名" = Row.get r "顧客名" ∧
        Row.get (vadProjectRow r) "担当営業" = Row.get r "担当営業" ∧
        Row.get (vadProjectRow r) "アシスタント名" = Row.get r "アシスタント名" ∧
        Row.get (vadProjectRow r) "見積No" = Row.get r "見積No" ∧
        Row.get (vadProjectRow r) "ブランド" = Row.get r "ブランド" ∧
        Row.get (vadProjectRow r) "SKU" = Row.get r "SKU" ∧
        Row.get (vadProjectRow r) "ライセンスカテゴリ" = Row.get r "ライセンスカテゴリー" ∧
        Row.get (vadProjectRow r) "商品名" = Row.get r "商品名" ∧
        Row.get (vadProjectRow r) "数量" = Row.get r "数量" ∧
        Row.get (vadProjectRow r) "小計" = Row.get r "小計" ∧
        Row.get (vadProjectRow r) "EU" = Row.get r "エンドユーザー名")) :=
  ⟨by decide, vad_projection_spec vadCxInput (by decide)⟩

/-! ## C3: the brand/license join -/

/-- Number of rows a single quote row produces in the join output. -/
theorem joinOne_length (M : List Row) (r : Row) :
    (joinOne M r).length
      = max 1 ((M.filter (fun m => Row.get m "SKU" == Row.get r "SKU")).length) := by
  unfold joinOne
  cases h : M.filter (fun m => Row.get m "SKU" == Row.get r "SKU") with
  | nil => simp
  | cons m ms =>
    simp only [List.length_map, List.length_cons]
    rw [Nat.max_eq_right (Nat.succ_le_succ (Nat.zero_le _))]

/-- C3 counterexample quote table: one row with SKU "D123456". -/
def brandCxQuotes : Table := ⟨["SKU"], [[("SKU", Value.str "D123456")]]⟩

/-- C3 counterexample master table: two rows whose part numbers
truncate to the same SKU but carry different brands, so both survive
`drop_duplicates` on (SKU, brand, license form). -/
def brandCxMaster : Table :=
  ⟨["パーツ番号", "ブランド", "ライセンス形態"],
   [[("パーツ番号", Value.str "D1234567A"), ("ブランド", Value.str "A"),
     ("ライセンス形態", Value.str "L1")],
    [("パーツ番号", Value.str "D1234567B"), ("ブランド", Value.str "B"),
     ("ライセンス形態", Value.str "L2")]]⟩

/-- C3 counterexample: on this concrete pair of tables the join returns
2 output rows from 1 input quote row — the left merge duplicates a
quote row once per surviving master match, refuting "exactly one output
row per input quote row (first match wins)". -/
theorem brand_license_unique_row_cx :
    (okRows (attach_brand_and_license brandCxQuotes brandCxMaster)).length = 2 ∧
    brandCxQuotes.rows.length = 1 := by
  decide

/-- C3 (amended): the join is a full left join — each quote row yields
one output row per master row matching its SKU in the deduplicated
master, and exactly one null-filled row when nothing matches (so
unmatched rows retain null brand, license form and license category);
in every output row the license-category column equals the license-form
column.  One output row per input row holds only when no SKU matches
several deduplicated master rows. -/
theorem brand_license_join_spec (qt mt : Table)
    (hm : ∀ c ∈ masterRequired, c ∈ mt.cols)
    (hsku : "SKU" ∈ qt.cols)
    (_hb : "ブランド" ∉ qt.cols) (_hl : "ライセンス形態" ∉ qt.cols) :
    ∃ t', attach_brand_and_license qt mt = Except.ok t' ∧
      t'.rows.length = (qt.rows.map (fun r =>
        max 1 ((masterSmallOf mt).filter
          (fun m => Row.get m "SKU" == Row.get r "SKU")).length)).sum ∧
      (∀ r' ∈ t'.rows, Row.get r' "ライセンスカテゴリー" = Row.get r' "ライセンス形態") ∧
      (∀ r ∈ qt.rows,
        (masterSmallOf mt).filter (fun m => Row.get m "SKU" == Row.get r "SKU") = [] →
        Row.set (Row.set (Row.set r "ブランド" Value.null) "ライセンス形態" Value.null)
          "ライセンスカテゴリー" Value.null ∈ t'.rows) := by
  have hred : attach_brand_and_license qt mt = Except.ok
      (Table.setCol ⟨qt.cols ++ ["ブランド", "ライセンス形態"],
        qt.rows.flatMap (joinOne (masterSmallOf mt))⟩
        "ライセンスカテゴリー" (fun r => Row.get r "ライセンス形態")) := by
    unfold attach_brand_and_license
    rw [missing_filter_nil hm]
    simp only [hsku, if_true]
  refine ⟨_, hred, ?_, ?_, ?_⟩
  · rw [Table.setCol_rows]
    simp only [List.length_map, List.length_flatMap]
    refine congrArg List.sum ?_
    refine List.map_congr_left ?_
    intro r _
    simp [joinOne_length]
  · intro r' hr'
    rw [Table.setCol_rows] at hr'
    obtain ⟨j, _, hset⟩ := List.mem_map.mp hr'
    rw [← hset, Row.get_set_self, Row.get_set_ne j _ (by decide)]
  · intro r hr hempty
    rw [Table.setCol_rows]
    have hj : joinOne (masterSmallOf mt) r
        = [Row.set (Row.set r "ブランド" Value.null) "ライセンス形態" Value.null] := by
      unfold joinOne
      rw [hempty]
    refine List.mem_map.mpr
      ⟨Row.set (Row.set r "ブランド" Value.null) "ライセンス形態" Value.null, ?_, ?_⟩
    · exact List.mem_flatMap.mpr ⟨r, hr, by rw [hj]; exact List.mem_singleton.mpr rfl⟩
    · rw [Row.get_set_self]

/-- C3 witness: the amended join theorem applied at the concrete
counterexample pair (one quote row, two colliding master rows). -/
theorem brand_license_join_spec_witness :
    ((∀ c ∈ masterRequired, c ∈ brandCxMaster.cols) ∧ "SKU" ∈ brandCxQuotes.cols ∧
      "ブランド" ∉ brandCxQuotes.cols ∧ "ライセンス形態" ∉ brandCxQuotes.cols) ∧
    (∃ t', attach_brand_and_license brandCxQuotes brandCxMaster = Except.ok t' ∧
      t'.rows.length = (brandCxQuotes.rows.map (fun r =>
        max 1 ((masterSmallOf brandCxMaster).filter
          (fun m => Row.get m "SKU" == Row.get r "SKU")).length)).sum ∧
      (∀ r' ∈ t'.rows, Row.get r' "ライセンスカテゴリー" = Row.get r' "ライセンス形態") ∧
      (∀ r ∈ brandCxQuotes.rows,
        (masterSmallOf brandCxMaster).filter
          (fun m => Row.get m "SKU" == Row.get r "SKU") = [] →
        Row.set (Row.set (Row.set r "ブランド" Value.null) "ライセンス形態" Value.null)
          "ライセンスカテゴリー" Value.null ∈ t'.rows)) :=
  ⟨⟨by decide, by decide, by decide, by decide⟩,
   brand_license_join_spec brandCxQuotes brandCxMaster
     (by decide) (by decide) (by decide) (by decide)⟩

/-! ## Reduction machinery for `build_forecast_table` -/

/-- The value inside a successful cell coercion (null on error; only
used where success is known). -/
def okValD (e : Except Err Value) : Value :=
  match e with
  | Except.ok v => v
  | Except.error _ => Value.null

theorem ok_okValD (e : Except Err Value) (h : e.isOk = true) :
    Except.ok (okValD e) = e := by
  cases e with
  | ok v => rfl
  | error e => simp [Except.isOk, Except.toBool] at h

theorem coerceCells_ok (c : String) (rows : List Row)
    (h : ∀ r ∈ rows, (coerceInt64 (Row.get r c)).isOk = true) :
    coerceCells c rows
      = Except.ok (rows.map (fun r => Row.set r c (okValD (coerceInt64 (Row.get r c))))) := by
  induction rows with
  | nil => rfl
  | cons r rest ih =>
    have h1 := h r (List.mem_cons_self r rest)
    cases hv : coerceInt64 (Row.get r c) with
    | error e => rw [hv] at h1; simp [Except.isOk, Except.toBool] at h1
    | ok v =>
      unfold coerceCells
      rw [hv, ih (fun a ha => h a (List.mem_cons_of_mem r ha))]
      simp [okValD, hv]

theorem coerceCol_ok (t : Table) (c : String)
    (h : ∀ r ∈ t.rows, (coerceInt64 (Row.get r c)).isOk = true) :
    ∃ g : Row → Row, coerceCol t c = Except.ok ⟨t.cols, t.rows.map g⟩ ∧
      (∀ r, Row.get (g r) c
        = (if c ∈ t.cols then okValD (coerceInt64 (Row.get r c)) else Row.get r c)) ∧
      (∀ r x, x ≠ c → Row.get (g r) x = Row.get r x) := by
  by_cases hc : c ∈ t.cols
  · refine ⟨fun r => Row.set r c (okValD (coerceInt64 (Row.get r c))), ?_, ?_, ?_⟩
    · unfold coerceCol
      rw [if_pos hc, coerceCells_ok c t.rows h]
    · intro r
      rw [if_pos hc, Row.get_set_self]
    · intro r x hx
      exact Row.get_set_ne r _ hx
  · refine ⟨id, ?_, ?_, ?_⟩
    · unfold coerceCol
      rw [if_neg hc]
      simp
    · intro r
      rw [if_neg hc]
      rfl
    · intro r x _
      rfl

/-- A two-branch column derivation is a single `setCol` for one of the
two cell functions. -/
theorem setCol_branch (P : Prop) [Decidable P] (t : Table) (c : String) (f g : Row → Value) :
    ∃ h : Row → Value, (if P then t.setCol c f else t.setCol c g) = t.setCol c h := by
  by_cases hP : P
  · exact ⟨f, if_pos hP⟩
  · exact ⟨g, if_neg hP⟩

/-- The three derivations 時期 / 確度分類 / 200万FLAG amount to three
`setCol`s on those columns. -/
theorem forecastDerive_shape (t2 : Table) :
    ∃ h3 h4 h5 : Row → Value,
      forecastT5 (forecastT4 (forecastT3 t2))
        = ((t2.setCol "時期" h3).setCol "確度分類" h4).setCol "200万FLAG" h5 := by
  obtain ⟨h3, e3⟩ := setCol_branch ("見積作成日" ∈ t2.cols) t2 "時期"
    (fun r => parsePeriod (Row.get r "見積作成日")) (fun _ => Value.null)
  obtain ⟨h4, e4⟩ := setCol_branch ("確度" ∈ (t2.setCol "時期" h3).cols) (t2.setCol "時期" h3)
    "確度分類" (fun r => Value.str (classify_conf (Row.get r "確度"))) (fun _ => Value.str "")
  obtain ⟨h5, e5⟩ := setCol_branch
    ("200万円UPフラグ" ∈ ((t2.setCol "時期" h3).setCol "確度分類" h4).cols)
    ((t2.setCol "時期" h3).setCol "確度分類" h4)
    "200万FLAG" (fun r => map_flag (Row.get r "200万円UPフラグ")) (fun _ => Value.str "")
  refine ⟨h3, h4, h5, ?_⟩
  rw [forecastT3, e3, forecastT4, e4, forecastT5, e5]

/-- The missing-column list computed against the derived header equals
the missing-source-column list against the input header. -/
theorem forecast_missing_eq (cols5 tcols : List String)
    (h : ∀ x, cols5.contains x
      = (((tcols.contains x || x == "時期") || x == "確度分類") || x == "200万FLAG")) :
    forecastColsInternal.filter (fun c => !(cols5.contains c))
      = forecastRequiredSource.filter (fun c => !(tcols.contains c)) := by
  have hsplit : forecastColsInternal
      = forecastRequiredSource ++ ["時期", "確度分類", "200万FLAG"] := rfl
  rw [hsplit, List.filter_append]
  have e1 : cols5.contains "時期" = true := by rw [h]; simp
  have e2 : cols5.contains "確度分類" = true := by rw [h]; simp
  have e3 : cols5.contains "200万FLAG" = true := by rw [h]; simp
  have m1 : "時期" ∈ cols5 := by simpa using e1
  have m2 : "確度分類" ∈ cols5 := by simpa using e2
  have m3 : "200万FLAG" ∈ cols5 := by simpa using e3
  have hnil : (["時期", "確度分類", "200万FLAG"] : List String).filter
      (fun c => !(cols5.contains c)) = [] := by
    simp [m1, m2, m3]
  rw [hnil, List.append_nil]
  refine List.filter_congr ?_
  intro c hcmem
  have hall : ∀ c ∈ forecastRequiredSource,
      ((c == "時期") = false ∧ (c == "確度分類") = false ∧ (c == "200万FLAG") = false) := by
    decide
  obtain ⟨n1, n2, n3⟩ := hall c hcmem
  rw [h c, n1, n2, n3]
  simp

/-- Full reduction of `build_forecast_table` under successful numeric
coercion of 見積No and 版数: the per-row transformation is a chain of
cell rewrites followed by the projection, the success case fires
exactly when no source column is missing, and the error case lists
every missing source column. -/
theorem build_forecast_reduced (t : Table)
    (hc : ∀ r ∈ t.rows, (coerceInt64 (Row.get r "見積No")).isOk = true
      ∧ (coerceInt64 (Row.get r "版数")).isOk = true) :
    ∃ g1 g2 : Row → Row, ∃ h3 h4 h5 : Row → Value,
      (∀ r, Row.get (g1 r) "見積No"
        = (if "見積No" ∈ t.cols then okValD (coerceInt64 (Row.get r "見積No")) else Row.get r "見積No")) ∧
      (∀ r x, x ≠ "見積No" → Row.get (g1 r) x = Row.get r x) ∧
      (∀ r, Row.get (g2 r) "版数"
        = (if "版数" ∈ t.cols then okValD (coerceInt64 (Row.get r "版数")) else Row.get r "版数")) ∧
      (∀ r x, x ≠ "版数" → Row.get (g2 r) x = Row.get r x) ∧
      (forecastRequiredSource.filter (fun c => !(t.cols.contains c)) = [] →
        build_forecast_table t = Except.ok
          ⟨forecastHeader,
           t.rows.map (fun r => forecastProjectRow
             (Row.set (Row.set (Row.set (g2 (g1 r)) "時期"
                 (h3 (g2 (g1 r)))) "確度分類"
                 (h4 (Row.set (g2 (g1 r)) "時期" (h3 (g2 (g1 r)))))) "200万FLAG"
                 (h5 (Row.set (Row.set (g2 (g1 r)) "時期" (h3 (g2 (g1 r)))) "確度分類"
                   (h4 (Row.set (g2 (g1 r)) "時期" (h3 (g2 (g1 r)))))))))⟩) ∧
      (∀ m ms, forecastRequiredSource.filter (fun c => !(t.cols.contains c)) = m :: ms →
        build_forecast_table t
          = Except.error (Err.missingCols "Forecastテーブル生成に必要な列が足りません" (m :: ms))) := by
  obtain ⟨g1, hg1, hg1c, hg1x⟩ := coerceCol_ok t "見積No" (fun r hr => (hc r hr).1)
  obtain ⟨g2, hg2, hg2c, hg2x⟩ := coerceCol_ok ⟨t.cols, t.rows.map g1⟩ "版数" (by
    intro r hr
    obtain ⟨a, ha, rfl⟩ := List.mem_map.mp hr
    rw [hg1x a "版数" (by decide)]
    exact (hc a ha).2)
  obtain ⟨h3, h4, h5, hshape⟩ := forecastDerive_shape ⟨t.cols, (t.rows.map g1).map g2⟩
  have hcont : ∀ x,
      (forecastT5 (forecastT4 (forecastT3 (⟨t.cols, (t.rows.map g1).map g2⟩ : Table)))).cols.contains x
        = (((t.cols.contains x || x == "時期") || x == "確度分類") || x == "200万FLAG") := by
    intro x
    rw [hshape, Table.setCol_contains, Table.setCol_contains, Table.setCol_contains]
  have hmisseq := forecast_missing_eq _ t.cols hcont
  have hrows :
      (forecastT5 (forecastT4 (forecastT3 (⟨t.cols, (t.rows.map g1).map g2⟩ : Table)))).rows
        = t.rows.map (fun r =>
            Row.set (Row.set (Row.set (g2 (g1 r)) "時期"
              (h3 (g2 (g1 r)))) "確度分類"
              (h4 (Row.set (g2 (g1 r)) "時期" (h3 (g2 (g1 r)))))) "200万FLAG"
              (h5 (Row.set (Row.set (g2 (g1 r)) "時期" (h3 (g2 (g1 r)))) "確度分類"
                (h4 (Row.set (g2 (g1 r)) "時期" (h3 (g2 (g1 r)))))))) := by
    rw [hshape]
    simp only [Table.setCol_rows, List.map_map]
    rfl
  refine ⟨g1, g2, h3, h4, h5, hg1c, hg1x, hg2c, hg2x, ?_, ?_⟩
  · intro hnil
    unfold build_forecast_table
    rw [hg1]
    dsimp only
    rw [hg2]
    dsimp only
    rw [show forecastColsInternal.filter
        (fun c => !((forecastT5 (forecastT4 (forecastT3 (⟨t.cols, (t.rows.map g1).map g2⟩ : Table)))).cols.contains c))
        = [] from hmisseq.trans hnil]
    rw [hrows]
    dsimp only
    rw [List.map_map]
    rfl
  · intro m ms hcons
    unfold build_forecast_table
    rw [hg1]
    dsimp only
    rw [hg2]
    dsimp only
    rw [show forecastColsInternal.filter
        (fun c => !((forecastT5 (forecastT4 (forecastT3 (⟨t.cols, (t.rows.map g1).map g2⟩ : Table)))).cols.contains c))
        = m :: ms from hmisseq.trans hcons]

/-! ## C5: required columns of the forecast build -/

/-- C5 counterexample input: a table with exactly the 26 source columns
the builder checks, one row of plain string cells. -/
def forecastSrcInput : Table :=
  ⟨forecastRequiredSource, [forecastRequiredSource.map (fun c => (c, Value.str "データ"))]⟩

/-- C5 counterexample second input: the same table with the メーカ名
column removed. -/
def forecastSrcInputMissing : Table :=
  ⟨forecastRequiredSource.filter (fun c => !(c == "メーカ名")),
   [(forecastRequiredSource.filter (fun c => !(c == "メーカ名"))).map
     (fun c => (c, Value.str "データ"))]⟩

/-- C5 counterexample: the build succeeds on a table with exactly 26
distinct columns, and fails once one of them (メーカ名) is removed — so
the set of required source columns has 26 elements, not 28 as the claim
counts them; 28 distinct required columns cannot all be present in a
succeeding 26-column table. -/
theorem forecast_required_cols_cx :
    (build_forecast_table forecastSrcInput).isOk = true ∧
    forecastSrcInput.cols.length = 26 ∧
    forecastSrcInput.cols.Nodup ∧
    (build_forecast_table forecastSrcInputMissing).isOk = false := by
  decide

/-- C5 (amended): provided the quote-number and revision cells coerce
to nullable integers without a cast error (the coercion runs before the
column check), `build_forecast_table` raises a precondition error whose
payload enumerates every missing one of its 26 required source columns
whenever at least one is absent — producing no output — and otherwise
succeeds with output columns exactly the 29-name forecast header in
the specified order. -/
theorem forecast_missing_cols_spec (t : Table)
    (hc : ∀ r ∈ t.rows, (coerceInt64 (Row.get r "見積No")).isOk = true
      ∧ (coerceInt64 (Row.get r "版数")).isOk = true) :
    (∀ m ms, forecastRequiredSource.filter (fun c => !(t.cols.contains c)) = m :: ms →
      build_forecast_table t
        = Except.error (Err.missingCols "Forecastテーブル生成に必要な列が足りません" (m :: ms))) ∧
    (forecastRequiredSource.filter (fun c => !(t.cols.contains c)) = [] →
      ∃ t', build_forecast_table t = Except.ok t' ∧
        t'.cols = forecastHeader ∧ t'.rows.length = t.rows.length) := by
  obtain ⟨g1, g2, h3, h4, h5, _, _, _, _, hok, herr⟩ := build_forecast_reduced t hc
  refine ⟨herr, ?_⟩
  intro hnil
  exact ⟨_, hok hnil, rfl, by simp⟩

/-- C5 witness: the amended theorem applied at the 26-column table
(success side reached) and at the table with メーカ名 removed (error
side reached, メーカ名 enumerated). -/
theorem forecast_missing_cols_spec_witness :
    (∀ r ∈ forecastSrcInput.rows,
      (coerceInt64 (Row.get r "見積No")).isOk = true
      ∧ (coerceInt64 (Row.get r "版数")).isOk = true) ∧
    ((∀ m ms, forecastRequiredSource.filter
        (fun c => !(forecastSrcInput.cols.contains c)) = m :: ms →
      build_forecast_table forecastSrcInput
        = Except.error (Err.missingCols "Forecastテーブル生成に必要な列が足りません" (m :: ms))) ∧
     (forecastRequiredSource.filter (fun c => !(forecastSrcInput.cols.contains c)) = [] →
      ∃ t', build_forecast_table forecastSrcInput = Except.ok t' ∧
        t'.cols = forecastHeader ∧ t'.rows.length = forecastSrcInput.rows.length)) :=
  ⟨by decide, forecast_missing_cols_spec forecastSrcInput (by decide)⟩

/-! ## C10: the quote-number / revision coercion -/

theorem forecastProjectRow_get_quoteno (r : Row) :
    Row.get (forecastProjectRow r) "見積No" = Row.get r "見積No" := rfl

theorem forecastProjectRow_get_revision (r : Row) :
    Row.get (forecastProjectRow r) "版数" = Row.get r "版数" := rfl

/-- C10 counterexample input: all 26 source columns present and the
quote number "3.5", which parses as a number but not as an integer. -/
def coercionCxInput : Table :=
  ⟨forecastRequiredSource,
   [Row.set (forecastRequiredSource.map (fun c => (c, Value.str "データ"))) "見積No"
     (Value.str "3.5")]⟩

/-- C10 counterexample: "3.5" parses as a number, yet the build neither
renders it as an integer nor as null — the nullable-integer cast
refuses the non-integral value and the whole build fails, against the
claim's parse-to-integer / non-parse-to-null dichotomy. -/
theorem forecast_quoteno_coercion_cx :
    build_forecast_table coercionCxInput
      = Except.error (Err.castErr "cannot safely cast non-equivalent float64 to int64") ∧
    forecastRequiredSource.filter (fun c => !(coercionCxInput.cols.contains c)) = [] ∧
    parseDecimal "3.5" = some (false, ['3'], ['5']) := by
  decide

/-- C10 (amended): in the forecast output, the quote-number and
revision cells are the input cells coerced by numeric parsing — null
and non-parsing values become null, integer-valued parses (including
trailing-zero fractional forms) become integers — provided no cell
parses to a non-integral number, in which case the nullable-integer
cast raises instead; a transformation the spec does not mention. -/
theorem forecast_quoteno_coercion_spec (t : Table)
    (hsrc : ∀ c ∈ forecastRequiredSource, c ∈ t.cols)
    (hc : ∀ r ∈ t.rows, (coerceInt64 (Row.get r "見積No")).isOk = true
      ∧ (coerceInt64 (Row.get r "版数")).isOk = true) :
    ∃ t', build_forecast_table t = Except.ok t' ∧
      t'.rows.length = t.rows.length ∧
      ∀ i, (h1 : i < t.rows.length) → (h2 : i < t'.rows.length) →
        Except.ok (Row.get (t'.rows.get ⟨i, h2⟩) "見積No")
          = coerceInt64 (Row.get (t.rows.get ⟨i, h1⟩) "見積No") ∧
        Except.ok (Row.get (t'.rows.get ⟨i, h2⟩) "版数")
          = coerceInt64 (Row.get (t.rows.get ⟨i, h1⟩) "版数") := by
  obtain ⟨g1, g2, h3, h4, h5, hg1c, hg1x, hg2c, hg2x, hok, _⟩ := build_forecast_reduced t hc
  have hg1q : ∀ r : Row, Row.get (g1 r) "見積No" = okValD (coerceInt64 (Row.get r "見積No")) := by
    intro r
    rw [hg1c r, if_pos (hsrc "見積No" (by decide))]
  have hg2v : ∀ r : Row, Row.get (g2 r) "版数" = okValD (coerceInt64 (Row.get r "版数")) := by
    intro r
    rw [hg2c r, if_pos (show "版数" ∈ t.cols from hsrc "版数" (by decide))]
  refine ⟨_, hok (missing_filter_nil hsrc), by simp, ?_⟩
  intro i h1 h2
  have hel : (t.rows.map (fun r => forecastProjectRow
      (Row.set (Row.set (Row.set (g2 (g1 r)) "時期"
        (h3 (g2 (g1 r)))) "確度分類"
        (h4 (Row.set (g2 (g1 r)) "時期" (h3 (g2 (g1 r)))))) "200万FLAG"
        (h5 (Row.set (Row.set (g2 (g1 r)) "時期" (h3 (g2 (g1 r)))) "確度分類"
          (h4 (Row.set (g2 (g1 r)) "時期" (h3 (g2 (g1 r)))))))))).get ⟨i, by simpa using h1⟩
      = forecastProjectRow
      (Row.set (Row.set (Row.set (g2 (g1 (t.rows.get ⟨i, h1⟩))) "時期"
        (h3 (g2 (g1 (t.rows.get ⟨i, h1⟩))))) "確度分類"
        (h4 (Row.set (g2 (g1 (t.rows.get ⟨i, h1⟩))) "時期" (h3 (g2 (g1 (t.rows.get ⟨i, h1⟩))))))) "200万FLAG"
        (h5 (Row.set (Row.set (g2 (g1 (t.rows.get ⟨i, h1⟩))) "時期" (h3 (g2 (g1 (t.rows.get ⟨i, h1⟩))))) "確度分類"
          (h4 (Row.set (g2 (g1 (t.rows.get ⟨i, h1⟩))) "時期" (h3 (g2 (g1 (t.rows.get ⟨i, h1⟩))))))))) := by
    simp [List.get_eq_getElem]
  have hmem : t.rows.get ⟨i, h1⟩ ∈ t.rows := t.rows.get_mem i h1
  constructor
  · rw [hel, forecastProjectRow_get_quoteno,
      Row.get_set_ne _ _ (by decide), Row.get_set_ne _ _ (by decide),
      Row.get_set_ne _ _ (by decide), hg2x _ _ (by decide), hg1q]
    exact ok_okValD _ (hc _ hmem).1
  · rw [hel, forecastProjectRow_get_revision,
      Row.get_set_ne _ _ (by decide), Row.get_set_ne _ _ (by decide),
      Row.get_set_ne _ _ (by decide), hg2v, hg1x _ _ (by decide)]
    exact ok_okValD _ (hc _ hmem).2

/-- C10 witness input: quote number "0042" (integer parse keeping
value 42), revision "3.0" (trailing-zero fractional form), and all
other source cells non-numeric strings. -/
def coercionOkInput : Table :=
  ⟨forecastRequiredSource,
   [Row.set (Row.set (forecastRequiredSource.map (fun c => (c, Value.str "データ"))) "見積No"
     (Value.str "0042")) "版数" (Value.str "3.0")]⟩

/-- C10 witness: the amended coercion theorem applied at the concrete
table with quote number "0042" and revision "3.0". -/
theorem forecast_quoteno_coercion_spec_witness :
    ((∀ c ∈ forecastRequiredSource, c ∈ coercionOkInput.cols) ∧
     (∀ r ∈ coercionOkInput.rows,
       (coerceInt64 (Row.get r "見積No")).isOk = true
       ∧ (coerceInt64 (Row.get r "版数")).isOk = true)) ∧
    (∃ t', build_forecast_table coercionOkInput = Except.ok t' ∧
      t'.rows.length = coercionOkInput.rows.length ∧
      ∀ i, (h1 : i < coercionOkInput.rows.length) → (h2 : i < t'.rows.length) →
        Except.ok (Row.get (t'.rows.get ⟨i, h2⟩) "見積No")
          = coerceInt64 (Row.get (coercionOkInput.rows.get ⟨i, h1⟩) "見積No") ∧
        Except.ok (Row.get (t'.rows.get ⟨i, h2⟩) "版数")
          = coerceInt64 (Row.get (coercionOkInput.rows.get ⟨i, h1⟩) "版数")) :=
  ⟨⟨by decide, by decide⟩,
   forecast_quoteno_coercion_spec coercionOkInput (by decide) (by decide)⟩

end Forecast
